import Mathlib

/-!
# life_stream: donor registry, registration intake and alert dispatch

A shallow embedding of `src/server/server.js`.

* The MongoDB collection `User` is a list of `Donor` documents in insertion
  order; `find`, `findOne`, `deleteOne` and `save` are the Mongoose calls the
  handlers make, restricted to the queries the handlers build (equality on
  `area`, `bloodGroup` and `phone`).  Storage calls are total: a storage
  outage (the handlers' outer `catch`, status 500) is outside the model.
* Request fields are JSON strings or missing (`Option String`); JavaScript
  truthiness of such a value is `truthy`.
* The Twilio client is a `Gateway`: an assignment of an outcome (delivered, or
  an error carrying an optional numeric code) to each destination address.
* `res.status(..).json(..)` is a `Response`: a status and a JSON object, a list
  of key/value pairs from which keys whose value is `undefined` are dropped,
  as `JSON.stringify` does.
-/

namespace LifeStream

/-! ## Data model -/

/-- A document of the `User` collection (`userSchema`). -/
structure Donor where
  name : String
  area : String
  phone : String
  bloodGroup : String
  createdAt : Nat
deriving DecidableEq, Repr

/-- The `User` collection, in insertion order. -/
abbrev Registry := List Donor

/-- A Mongo query object as the handlers build it: each present key is an
equality constraint on the field of that name. -/
structure Query where
  area : Option String
  bloodGroup : Option String
  phone : Option String
deriving DecidableEq, Repr

/-- One optional equality constraint of a query. -/
def constraintHolds (c : Option String) (v : String) : Bool :=
  match c with
  | none => true
  | some x => decide (v = x)

/-- Whether a document satisfies a query. -/
def Query.selects (q : Query) (d : Donor) : Bool :=
  constraintHolds q.area d.area && constraintHolds q.bloodGroup d.bloodGroup
    && constraintHolds q.phone d.phone

/-- The query `{ phone }`. -/
def phoneQuery (phone : String) : Query :=
  { area := none, bloodGroup := none, phone := some phone }

/-- Mongoose `User.find(query)`. -/
def find (q : Query) (reg : Registry) : List Donor :=
  reg.filter q.selects

/-- Mongoose `User.findOne(query)`. -/
def findOne (q : Query) (reg : Registry) : Option Donor :=
  reg.find? q.selects

/-- Mongoose `User.deleteOne(query)`: removes the first matching document, and
is a no-op when there is none. -/
def deleteOne (q : Query) (reg : Registry) : Registry :=
  reg.eraseP q.selects

/-- Mongoose `newUser.save()` under the `unique: true` index on `phone`: the
insert fails with the duplicate-key code 11000 when the phone is present. -/
def save (d : Donor) (reg : Registry) : Except Nat Registry :=
  if reg.any (fun e => decide (e.phone = d.phone)) then Except.error 11000
  else Except.ok (reg ++ [d])

/-- A JSON value of the shapes the handlers emit. -/
inductive JVal where
  | str (s : String)
  | num (n : Nat)
  | strs (xs : List String)
deriving DecidableEq, Repr

/-- A JSON object: its keys in order with their values. -/
abbrev JObj := List (String × JVal)

/-- The value under a key of a JSON object, if the key is present. -/
def JObj.field (o : JObj) (k : String) : Option JVal :=
  List.lookup k o

/-- What `res.status(s).json(o)` sends. -/
structure Response where
  status : Nat
  json : JObj
deriving DecidableEq, Repr

/-- A response whose body is `{ message }`. -/
def messageResponse (status : Nat) (message : String) : Response :=
  { status := status, json := [("message", JVal.str message)] }

/-- The part of `process.env` the handlers read. -/
structure Env where
  HOSPITAL_ALERT_PASSWORD : Option String
  TWILIO_PHONE_NUMBER : Option String
deriving DecidableEq, Repr

/-- JavaScript truthiness of a string-or-missing value: `some s` when the value
is a non-empty string, `none` when `!v` holds. -/
def truthy (v : Option String) : Option String :=
  match v with
  | none => none
  | some s => if s = "" then none else some s

/-! ## Registration intake: `POST /api/register-donor` -/

/-- An atom of a regular expression: a literal character or the class `\d`. -/
inductive RxAtom where
  | lit (c : Char)
  | digit
deriving DecidableEq, Repr

/-- Whether an atom accepts a character; `\d` is the ASCII digits. -/
def RxAtom.accepts (a : RxAtom) (x : Char) : Bool :=
  match a with
  | RxAtom.lit c => decide (x = c)
  | RxAtom.digit => x.isDigit

/-- Matching of `^a₁a₂…aₙ$`: the atoms must consume the whole input. -/
def matchAnchored : List RxAtom → List Char → Bool
  | [], [] => true
  | [], _ :: _ => false
  | _ :: _, [] => false
  | a :: as, c :: cs => a.accepts c && matchAnchored as cs

/-- The atoms of `/^\+91\d{10}$/`. -/
def phoneRegex : List RxAtom :=
  [RxAtom.lit '+', RxAtom.lit '9', RxAtom.lit '1'] ++ List.replicate 10 RxAtom.digit

/-- The call `phoneRegex.test(phone)`. -/
def phoneRegexTest (phone : String) : Bool :=
  matchAnchored phoneRegex phone.toList

/-- The body of a registration request. -/
structure RegisterBody where
  name : Option String
  area : Option String
  phone : Option String
  bloodGroup : Option String
deriving DecidableEq, Repr

/-- The outcome of a handler that sends nothing: its response and the registry
it leaves. -/
structure RegistryResult where
  response : Response
  registry : Registry
deriving DecidableEq, Repr

def invalidPhoneMessage : String :=
  "Please enter a valid 10-digit Indian phone number (e.g., +919322659210)"

/-- The handler of `POST /api/register-donor`; `now` is `Date.now()`. -/
def registerDonor (now : Nat) (reg : Registry) (body : RegisterBody) : RegistryResult :=
  match truthy body.name, truthy body.area, truthy body.phone, truthy body.bloodGroup with
  | some name, some area, some phone, some bloodGroup =>
    if !phoneRegexTest phone then
      { response := messageResponse 400 invalidPhoneMessage, registry := reg }
    else
      match findOne (phoneQuery phone) reg with
      | some _ =>
        { response := messageResponse 400 "Phone number already registered", registry := reg }
      | none =>
        let newUser : Donor :=
          { name := name, area := area, phone := phone, bloodGroup := bloodGroup,
            createdAt := now }
        match save newUser reg with
        | Except.ok reg1 =>
          { response := messageResponse 201 "Donor registered successfully", registry := reg1 }
        | Except.error code =>
          if code = 11000 then
            { response := messageResponse 400 "Phone number already registered",
              registry := reg }
          else
            { response := messageResponse 500 "Internal server error", registry := reg }
  | _, _, _, _ =>
    { response := messageResponse 400 "All fields are required", registry := reg }

/-! ## Alert dispatch: `POST /api/send-alert` -/

/-- The result of one `twilioClient.messages.create` call: it resolves, or it
throws an error whose `code` may be absent. -/
inductive Outcome where
  | delivered
  | failed (code : Option Int)
deriving DecidableEq, Repr

/-- The transport: the outcome of a send to each destination address. -/
abbrev Gateway := String → Outcome

/-- The argument of `twilioClient.messages.create`: its `body`, `from` and `to`. -/
structure Sms where
  body : String
  fromNumber : Option String
  toNumber : String
deriving DecidableEq, Repr

/-- The body of an alert request. -/
structure AlertBody where
  hospitalName : Option String
  area : Option String
  bloodGroup : Option String
  additionalInfo : Option String
  password : Option String
deriving DecidableEq, Repr

/-- The query of the alert handler: `{ area }`, plus `bloodGroup` unless it is
`'Any'`, minus `area` when it is `'All'`. -/
def alertQuery (area bloodGroup : String) : Query :=
  let query : Query := { area := some area, bloodGroup := none, phone := none }
  let query := if bloodGroup ≠ "Any" then { query with bloodGroup := some bloodGroup } else query
  if area = "All" then { query with area := none } else query

/-- The text of the 404 response. -/
def noDonorsMessage (area : String) : String :=
  let specificAreaMessage := if area = "All" then "in any area" else "in the " ++ area ++ " area"
  "No donors found with the required blood group " ++ specificAreaMessage ++ "."

/-- The SMS text; `additionalInfo || ''` is the empty text when the field is
missing or empty. -/
def alertMessage (hospitalName area bloodGroup : String) (additionalInfo : Option String) :
    String :=
  "URGENT: Blood needed at " ++ hospitalName ++ " in " ++ area ++ ". Blood type: "
    ++ bloodGroup ++ ". " ++ (truthy additionalInfo).getD "" ++ " Please help if you can."

/-- The variables of the send loop, with the registry and the log of the
`messages.create` calls made so far. -/
structure AlertState where
  successfulSends : Nat
  failedSends : Nat
  failedNumbers : List String
  registry : Registry
  sent : List Sms
deriving DecidableEq, Repr

/-- One iteration of `for (const donor of donors)`. -/
def alertStep (env : Env) (gw : Gateway) (message : String) (s : AlertState) (donor : Donor) :
    AlertState :=
  let sms : Sms := { body := message, fromNumber := env.TWILIO_PHONE_NUMBER, toNumber := donor.phone }
  match gw sms.toNumber with
  | Outcome.delivered =>
    { s with successfulSends := s.successfulSends + 1, sent := s.sent ++ [sms] }
  | Outcome.failed code =>
    let s1 : AlertState :=
      { s with failedSends := s.failedSends + 1,
               failedNumbers := s.failedNumbers ++ [donor.phone],
               sent := s.sent ++ [sms] }
    if code = some 21211 then
      { s1 with registry := deleteOne (phoneQuery donor.phone) s1.registry }
    else s1

/-- The whole send loop over the fetched donors. -/
def alertLoop (env : Env) (gw : Gateway) (message : String) (donors : List Donor)
    (reg : Registry) : AlertState :=
  donors.foldl (alertStep env gw message)
    { successfulSends := 0, failedSends := 0, failedNumbers := [], registry := reg, sent := [] }

/-- The JSON report of a completed dispatch; `failedNumbers` is `undefined`,
hence absent, when nothing failed. -/
def alertReport (s : AlertState) : JObj :=
  [("message", JVal.str ("Alert sent to " ++ toString s.successfulSends ++ " donor(s). "
      ++ (if s.failedSends > 0 then toString s.failedSends ++ " failed." else ""))),
   ("successfulSends", JVal.num s.successfulSends),
   ("failedSends", JVal.num s.failedSends)]
  ++ (if s.failedSends > 0 then [("failedNumbers", JVal.strs s.failedNumbers)] else [])

/-- The outcome of the alert handler: its response, the registry it leaves and
the sends it attempted, in order. -/
structure AlertResult where
  response : Response
  registry : Registry
  sent : List Sms
deriving DecidableEq, Repr

/-- The handler of `POST /api/send-alert`. -/
def sendAlert (env : Env) (gw : Gateway) (reg : Registry) (body : AlertBody) : AlertResult :=
  if (truthy body.password).isNone || body.password != env.HOSPITAL_ALERT_PASSWORD then
    { response := messageResponse 401 "Invalid password. You are not authorized to send alerts.",
      registry := reg, sent := [] }
  else
    match truthy body.hospitalName, truthy body.area, truthy body.bloodGroup with
    | some hospitalName, some area, some bloodGroup =>
      let donors := find (alertQuery area bloodGroup) reg
      if donors.length = 0 then
        { response := messageResponse 404 (noDonorsMessage area), registry := reg, sent := [] }
      else
        let message := alertMessage hospitalName area bloodGroup body.additionalInfo
        let s := alertLoop env gw message donors reg
        { response := { status := 200, json := alertReport s },
          registry := s.registry, sent := s.sent }
    | _, _, _ =>
      { response := messageResponse 400 "Hospital name, area, and blood group are required",
        registry := reg, sent := [] }

/-! ## Administrative removal: `DELETE /api/donor/:phone` -/

/-- The handler of `DELETE /api/donor/:phone`. -/
def deleteDonor (reg : Registry) (phone : String) : RegistryResult :=
  { response := messageResponse 200 "Donor deleted successfully",
    registry := deleteOne (phoneQuery phone) reg }

/-! ## The server as a state machine over the registry -/

/-- A request that can change the registry. -/
inductive Request where
  | register (now : Nat) (body : RegisterBody)
  | alert (gw : Gateway) (body : AlertBody)
  | delete (phone : String)

/-- The registry after the server has handled one request. -/
def handle (env : Env) (reg : Registry) (req : Request) : Registry :=
  match req with
  | Request.register now body => (registerDonor now reg body).registry
  | Request.alert gw body => (sendAlert env gw reg body).registry
  | Request.delete phone => (deleteDonor reg phone).registry

/-- The registry after a sequence of requests, starting from the empty
collection. -/
def run (env : Env) (reqs : List Request) : Registry :=
  reqs.foldl (handle env) []

/-! ## Predicates used in the statements -/

/-- No two documents of the registry share a phone. -/
def UniquePhones (reg : Registry) : Prop :=
  (reg.map Donor.phone).Nodup

instance (reg : Registry) : Decidable (UniquePhones reg) := by
  unfold UniquePhones; infer_instance

/-- Whether the send to a donor resolves. -/
def sendSucceeds (gw : Gateway) (d : Donor) : Bool :=
  decide (gw d.phone = Outcome.delivered)

/-- Whether the send to a donor throws. -/
def sendFails (gw : Gateway) (d : Donor) : Bool :=
  !sendSucceeds gw d

/-- Whether the send to a donor throws with the invalid-number code 21211. -/
def sendInvalid (gw : Gateway) (d : Donor) : Bool :=
  decide (gw d.phone = Outcome.failed (some 21211))

/-- The address format in the words of the specification: the text `+91`, then
exactly ten decimal digits, and nothing else. -/
def isIndianMobile (phone : String) : Bool :=
  let cs := phone.toList
  decide (cs.take 3 = ['+', '9', '1']) && decide ((cs.drop 3).length = 10)
    && (cs.drop 3).all Char.isDigit

/-! ## Concrete scenarios -/

/-- An environment with an alert password and a sender number. -/
def exampleEnv : Env :=
  { HOSPITAL_ALERT_PASSWORD := some "secret", TWILIO_PHONE_NUMBER := some "+15005550006" }

/-- Three donors of area X with blood groups P, Q, P. -/
def scenarioA : Registry :=
  [⟨"Asha", "X", "+919000000001", "P", 1⟩,
   ⟨"Bala", "X", "+919000000002", "Q", 2⟩,
   ⟨"Chitra", "X", "+919000000003", "P", 3⟩]

/-- Five donors over two areas. -/
def scenarioB : Registry :=
  [⟨"Asha", "X", "+919000000001", "P", 1⟩,
   ⟨"Bala", "X", "+919000000002", "Q", 2⟩,
   ⟨"Chitra", "X", "+919000000003", "P", 3⟩,
   ⟨"Dev", "Z", "+919000000004", "Q", 4⟩,
   ⟨"Esha", "Z", "+919000000005", "P", 5⟩]

/-- A gateway that delivers everything. -/
def deliverAll : Gateway :=
  fun _ => Outcome.delivered

/-- A gateway that reports one number as invalid (21211), fails another with a
different code, and delivers the rest. -/
def mixedGateway : Gateway :=
  fun p =>
    if p = "+919000000002" then Outcome.failed (some 21211)
    else if p = "+919000000004" then Outcome.failed (some 30003)
    else Outcome.delivered

/-- An alert request carrying the password of `exampleEnv`. -/
def exampleAlert (area bloodGroup : String) : AlertBody :=
  ⟨some "City Hospital", some area, some bloodGroup, none, some "secret"⟩

/-! ## The send loop, field by field -/

theorem alertStep_successfulSends (env : Env) (gw : Gateway) (message : String) (s : AlertState)
    (d : Donor) :
    (alertStep env gw message s d).successfulSends
      = s.successfulSends + (if sendSucceeds gw d then 1 else 0) := by
  cases h : gw d.phone with
  | delivered => simp [alertStep, sendSucceeds, sendFails, sendInvalid, h]
  | failed code =>
    by_cases hc : code = some 21211 <;>
      simp [alertStep, sendSucceeds, sendFails, sendInvalid, h, hc]

theorem alertStep_failedSends (env : Env) (gw : Gateway) (message : String) (s : AlertState)
    (d : Donor) :
    (alertStep env gw message s d).failedSends
      = s.failedSends + (if sendFails gw d then 1 else 0) := by
  cases h : gw d.phone with
  | delivered => simp [alertStep, sendSucceeds, sendFails, sendInvalid, h]
  | failed code =>
    by_cases hc : code = some 21211 <;>
      simp [alertStep, sendSucceeds, sendFails, sendInvalid, h, hc]

theorem alertStep_failedNumbers (env : Env) (gw : Gateway) (message : String) (s : AlertState)
    (d : Donor) :
    (alertStep env gw message s d).failedNumbers
      = s.failedNumbers ++ (if sendFails gw d then [d.phone] else []) := by
  cases h : gw d.phone with
  | delivered => simp [alertStep, sendSucceeds, sendFails, sendInvalid, h]
  | failed code =>
    by_cases hc : code = some 21211 <;>
      simp [alertStep, sendSucceeds, sendFails, sendInvalid, h, hc]

theorem alertStep_sent (env : Env) (gw : Gateway) (message : String) (s : AlertState)
    (d : Donor) :
    (alertStep env gw message s d).sent
      = s.sent ++ [{ body := message, fromNumber := env.TWILIO_PHONE_NUMBER,
                     toNumber := d.phone }] := by
  cases h : gw d.phone with
  | delivered => simp [alertStep, sendSucceeds, sendFails, sendInvalid, h]
  | failed code =>
    by_cases hc : code = some 21211 <;>
      simp [alertStep, sendSucceeds, sendFails, sendInvalid, h, hc]

theorem alertStep_registry (env : Env) (gw : Gateway) (message : String) (s : AlertState)
    (d : Donor) :
    (alertStep env gw message s d).registry
      = if sendInvalid gw d then deleteOne (phoneQuery d.phone) s.registry else s.registry := by
  cases h : gw d.phone with
  | delivered => simp [alertStep, sendSucceeds, sendFails, sendInvalid, h]
  | failed code =>
    by_cases hc : code = some 21211 <;>
      simp [alertStep, sendSucceeds, sendFails, sendInvalid, h, hc]

theorem foldl_alertStep_successfulSends (env : Env) (gw : Gateway) (message : String)
    (donors : List Donor) (s : AlertState) :
    (donors.foldl (alertStep env gw message) s).successfulSends
      = s.successfulSends + donors.countP (sendSucceeds gw) := by
  induction donors generalizing s with
  | nil => simp
  | cons d ds ih =>
    rw [List.foldl_cons, ih, alertStep_successfulSends, List.countP_cons]
    omega

theorem foldl_alertStep_failedSends (env : Env) (gw : Gateway) (message : String)
    (donors : List Donor) (s : AlertState) :
    (donors.foldl (alertStep env gw message) s).failedSends
      = s.failedSends + donors.countP (sendFails gw) := by
  induction donors generalizing s with
  | nil => simp
  | cons d ds ih =>
    rw [List.foldl_cons, ih, alertStep_failedSends, List.countP_cons]
    omega

theorem foldl_alertStep_failedNumbers (env : Env) (gw : Gateway) (message : String)
    (donors : List Donor) (s : AlertState) :
    (donors.foldl (alertStep env gw message) s).failedNumbers
      = s.failedNumbers ++ (donors.filter (sendFails gw)).map Donor.phone := by
  induction donors generalizing s with
  | nil => simp
  | cons d ds ih =>
    rw [List.foldl_cons, ih, alertStep_failedNumbers]
    by_cases h : sendFails gw d = true <;> simp [h, List.filter_cons]

theorem foldl_alertStep_sent (env : Env) (gw : Gateway) (message : String)
    (donors : List Donor) (s : AlertState) :
    (donors.foldl (alertStep env gw message) s).sent
      = s.sent ++ donors.map (fun d =>
          { body := message, fromNumber := env.TWILIO_PHONE_NUMBER, toNumber := d.phone }) := by
  induction donors generalizing s with
  | nil => simp
  | cons d ds ih =>
    rw [List.foldl_cons, ih, alertStep_sent]
    simp

/-! ## Registry primitives -/

theorem selects_phoneQuery (p : String) (d : Donor) :
    (phoneQuery p).selects d = decide (d.phone = p) := by
  simp [Query.selects, phoneQuery, constraintHolds]

theorem deleteOne_sublist (q : Query) (reg : Registry) : (deleteOne q reg).Sublist reg :=
  List.eraseP_sublist reg

theorem UniquePhones.of_sublist {l₁ l₂ : Registry} (h : l₁.Sublist l₂) (hu : UniquePhones l₂) :
    UniquePhones l₁ :=
  List.Nodup.sublist (h.map Donor.phone) hu

theorem UniquePhones.eq_of_phone_eq {reg : Registry} (hu : UniquePhones reg) {d e : Donor}
    (hd : d ∈ reg) (he : e ∈ reg) (h : d.phone = e.phone) : d = e :=
  List.inj_on_of_nodup_map hu hd he h

theorem deleteOne_phoneQuery_of_unique (p : String) (reg : Registry) (hu : UniquePhones reg) :
    deleteOne (phoneQuery p) reg = reg.filter (fun d => !decide (d.phone = p)) := by
  induction reg with
  | nil => rfl
  | cons d ds ih =>
    have hu2 : (d.phone ∉ ds.map Donor.phone) ∧ UniquePhones ds := by
      simpa [UniquePhones] using hu
    by_cases hp : d.phone = p
    · have hds : ds.filter (fun e => !decide (e.phone = p)) = ds := by
        apply List.filter_eq_self.2
        intro e he
        have : e.phone ≠ p := by
          intro hep
          exact hu2.1 (List.mem_map.2 ⟨e, he, by rw [hep, hp]⟩)
        simp [this]
      simp [deleteOne, List.eraseP_cons, selects_phoneQuery, hp, List.filter_cons, hds]
    · have := ih hu2.2
      simp only [deleteOne] at this
      simp [deleteOne, List.eraseP_cons, selects_phoneQuery, hp, List.filter_cons, this]

/-! ## The registry across the send loop -/

theorem foldl_alertStep_registry_sublist (env : Env) (gw : Gateway) (message : String)
    (donors : List Donor) (s : AlertState) :
    ((donors.foldl (alertStep env gw message) s).registry).Sublist s.registry := by
  induction donors generalizing s with
  | nil => simp
  | cons d ds ih =>
    rw [List.foldl_cons]
    refine (ih _).trans ?_
    rw [alertStep_registry]
    split
    · exact deleteOne_sublist _ _
    · exact List.Sublist.refl _

theorem sendInvalid_congr (gw : Gateway) {d e : Donor} (h : d.phone = e.phone) :
    sendInvalid gw d = sendInvalid gw e := by
  simp [sendInvalid, h]

theorem foldl_alertStep_registry (env : Env) (gw : Gateway) (message : String)
    (donors : List Donor) (s : AlertState) (hu : UniquePhones s.registry) :
    (donors.foldl (alertStep env gw message) s).registry
      = s.registry.filter (fun d =>
          !(sendInvalid gw d && decide (d.phone ∈ donors.map Donor.phone))) := by
  induction donors generalizing s with
  | nil => simp
  | cons e es ih =>
    rw [List.foldl_cons]
    have hsub : ((alertStep env gw message s e).registry).Sublist s.registry := by
      rw [alertStep_registry]
      split
      · exact deleteOne_sublist _ _
      · exact List.Sublist.refl _
    rw [ih _ (UniquePhones.of_sublist hsub hu), alertStep_registry]
    by_cases hinv : sendInvalid gw e = true
    · rw [if_pos hinv, deleteOne_phoneQuery_of_unique _ _ hu, List.filter_filter]
      apply List.filter_congr
      intro d _
      by_cases hde : d.phone = e.phone
      · simp [hde, sendInvalid_congr gw hde, hinv]
      · simp [hde]
    · rw [if_neg hinv]
      apply List.filter_congr
      intro d _
      by_cases hde : d.phone = e.phone
      · have : sendInvalid gw d = false := by
          rw [sendInvalid_congr gw hde]; simpa using hinv
        simp [this]
      · simp [hde]

/-! ## The alert handler on an authorised, well-formed request -/

theorem countP_sendSucceeds_add_sendFails (gw : Gateway) (donors : List Donor) :
    donors.countP (sendSucceeds gw) + donors.countP (sendFails gw) = donors.length := by
  induction donors with
  | nil => rfl
  | cons d ds ih =>
    rw [List.countP_cons, List.countP_cons, List.length_cons]
    by_cases h : sendSucceeds gw d = true <;> simp [sendFails, h] <;> omega

theorem sendAlert_authorised (env : Env) (gw : Gateway) (reg : Registry)
    (h a c pw : String) (info : Option String)
    (hh : h ≠ "") (ha : a ≠ "") (hc : c ≠ "") (hpw : pw ≠ "")
    (henv : env.HOSPITAL_ALERT_PASSWORD = some pw) :
    sendAlert env gw reg ⟨some h, some a, some c, info, some pw⟩
      = if (find (alertQuery a c) reg).length = 0 then
          { response := messageResponse 404 (noDonorsMessage a), registry := reg, sent := [] }
        else
          { response :=
              { status := 200,
                json := alertReport
                  (alertLoop env gw (alertMessage h a c info) (find (alertQuery a c) reg) reg) },
            registry :=
              (alertLoop env gw (alertMessage h a c info) (find (alertQuery a c) reg) reg).registry,
            sent :=
              (alertLoop env gw (alertMessage h a c info) (find (alertQuery a c) reg) reg).sent } := by
  simp [sendAlert, truthy, hh, ha, hc, hpw, henv]

theorem alertLoop_successfulSends (env : Env) (gw : Gateway) (message : String)
    (donors : List Donor) (reg : Registry) :
    (alertLoop env gw message donors reg).successfulSends = donors.countP (sendSucceeds gw) := by
  simp [alertLoop, foldl_alertStep_successfulSends]

theorem alertLoop_failedSends (env : Env) (gw : Gateway) (message : String)
    (donors : List Donor) (reg : Registry) :
    (alertLoop env gw message donors reg).failedSends = donors.countP (sendFails gw) := by
  simp [alertLoop, foldl_alertStep_failedSends]

theorem alertLoop_failedNumbers (env : Env) (gw : Gateway) (message : String)
    (donors : List Donor) (reg : Registry) :
    (alertLoop env gw message donors reg).failedNumbers
      = (donors.filter (sendFails gw)).map Donor.phone := by
  simp [alertLoop, foldl_alertStep_failedNumbers]

theorem alertLoop_sent (env : Env) (gw : Gateway) (message : String)
    (donors : List Donor) (reg : Registry) :
    (alertLoop env gw message donors reg).sent
      = donors.map (fun d =>
          { body := message, fromNumber := env.TWILIO_PHONE_NUMBER, toNumber := d.phone }) := by
  simp [alertLoop, foldl_alertStep_sent]

theorem alertLoop_registry (env : Env) (gw : Gateway) (message : String)
    (donors : List Donor) (reg : Registry) (hu : UniquePhones reg) :
    (alertLoop env gw message donors reg).registry
      = reg.filter (fun d =>
          !(sendInvalid gw d && decide (d.phone ∈ donors.map Donor.phone))) := by
  unfold alertLoop
  rw [foldl_alertStep_registry _ _ _ _ _ hu]

theorem alertLoop_registry_sublist (env : Env) (gw : Gateway) (message : String)
    (donors : List Donor) (reg : Registry) :
    ((alertLoop env gw message donors reg).registry).Sublist reg := by
  unfold alertLoop
  exact foldl_alertStep_registry_sublist _ _ _ _ _

theorem alertReport_field_successfulSends (s : AlertState) :
    JObj.field (alertReport s) "successfulSends" = some (JVal.num s.successfulSends) := by
  simp [alertReport, JObj.field, List.lookup]

theorem alertReport_field_failedSends (s : AlertState) :
    JObj.field (alertReport s) "failedSends" = some (JVal.num s.failedSends) := by
  simp [alertReport, JObj.field, List.lookup]

theorem alertReport_field_failedNumbers (s : AlertState) :
    JObj.field (alertReport s) "failedNumbers"
      = if s.failedSends = 0 then none else some (JVal.strs s.failedNumbers) := by
  by_cases h : s.failedSends = 0
  · simp [alertReport, JObj.field, List.lookup, h]
  · have : s.failedSends > 0 := Nat.pos_of_ne_zero h
    simp [alertReport, JObj.field, List.lookup, h, this]

theorem alertReport_keys (s : AlertState) :
    (alertReport s).map Prod.fst
      = ["message", "successfulSends", "failedSends"]
          ++ (if s.failedSends = 0 then [] else ["failedNumbers"]) := by
  by_cases h : s.failedSends = 0
  · simp [alertReport, h]
  · have : s.failedSends > 0 := Nat.pos_of_ne_zero h
    simp [alertReport, h, this]

/-! ## Which donors a dispatch removes -/

theorem mem_find {q : Query} {reg : Registry} {d : Donor} :
    d ∈ find q reg ↔ d ∈ reg ∧ q.selects d = true := by
  simp [find, List.mem_filter]

theorem find_sublist (q : Query) (reg : Registry) : (find q reg).Sublist reg :=
  List.filter_sublist reg

theorem phone_mem_find_iff {q : Query} {reg : Registry} (hu : UniquePhones reg) {d : Donor}
    (hd : d ∈ reg) : d.phone ∈ (find q reg).map Donor.phone ↔ d ∈ find q reg := by
  constructor
  · intro h
    obtain ⟨e, he, hpe⟩ := List.mem_map.1 h
    have : e = d := hu.eq_of_phone_eq ((find_sublist q reg).subset he) hd hpe
    exact this ▸ he
  · intro h
    exact List.mem_map.2 ⟨d, h, rfl⟩

theorem mem_alertLoop_registry (env : Env) (gw : Gateway) (message : String) (q : Query)
    (reg : Registry) (hu : UniquePhones reg) (d : Donor) :
    d ∈ (alertLoop env gw message (find q reg) reg).registry
      ↔ d ∈ reg ∧ ¬ (d ∈ find q reg ∧ gw d.phone = Outcome.failed (some 21211)) := by
  rw [alertLoop_registry _ _ _ _ _ hu, List.mem_filter]
  constructor
  · rintro ⟨hd, hk⟩
    refine ⟨hd, ?_⟩
    rintro ⟨hm, hinv⟩
    have h1 : d.phone ∈ (find q reg).map Donor.phone := (phone_mem_find_iff hu hd).2 hm
    simp [sendInvalid, hinv, h1] at hk
  · rintro ⟨hd, hk⟩
    refine ⟨hd, ?_⟩
    by_cases hinv : gw d.phone = Outcome.failed (some 21211)
    · have h1 : d.phone ∉ (find q reg).map Donor.phone := fun hp =>
        hk ⟨(phone_mem_find_iff hu hd).1 hp, hinv⟩
      simp [sendInvalid, hinv, h1]
    · simp [sendInvalid, hinv]

/-- Every run of the handler either sends nothing and leaves the registry, or
runs the send loop over the donors some query fetched. -/
theorem sendAlert_cases (env : Env) (gw : Gateway) (reg : Registry) (body : AlertBody) :
    ((sendAlert env gw reg body).registry = reg ∧ (sendAlert env gw reg body).sent = [])
    ∨ ∃ (q : Query) (message : String),
        (sendAlert env gw reg body).registry = (alertLoop env gw message (find q reg) reg).registry
        ∧ (sendAlert env gw reg body).sent = (alertLoop env gw message (find q reg) reg).sent := by
  unfold sendAlert
  split
  · exact Or.inl ⟨rfl, rfl⟩
  · split
    · next hospitalName area bloodGroup _ _ _ =>
      dsimp only
      split
      · exact Or.inl ⟨rfl, rfl⟩
      · exact Or.inr ⟨alertQuery area bloodGroup, _, rfl, rfl⟩
    · exact Or.inl ⟨rfl, rfl⟩

theorem sendAlert_registry_sublist (env : Env) (gw : Gateway) (reg : Registry)
    (body : AlertBody) : ((sendAlert env gw reg body).registry).Sublist reg := by
  rcases sendAlert_cases env gw reg body with ⟨h, _⟩ | ⟨q, message, h, _⟩
  · rw [h]
  · rw [h]; exact alertLoop_registry_sublist _ _ _ _ _

/-! ## A second dispatch after the first -/

theorem find_filter_comm (q : Query) (k : Donor → Bool) (reg : Registry) :
    find q (reg.filter k) = (find q reg).filter k := by
  simp only [find, List.filter_filter]
  apply List.filter_congr
  intro d _
  exact Bool.and_comm _ _

theorem find_alertLoop_registry (env : Env) (gw : Gateway) (message : String) (q : Query)
    (reg : Registry) (hu : UniquePhones reg) :
    find q (alertLoop env gw message (find q reg) reg).registry
      = (find q reg).filter (fun d => !sendInvalid gw d) := by
  rw [alertLoop_registry _ _ _ _ _ hu, find_filter_comm]
  apply List.filter_congr
  intro d hd
  have : d.phone ∈ (find q reg).map Donor.phone := List.mem_map.2 ⟨d, hd, rfl⟩
  simp [this]

theorem countP_sendSucceeds_filter_valid (gw : Gateway) (donors : List Donor) :
    (donors.filter (fun d => !sendInvalid gw d)).countP (sendSucceeds gw)
      = donors.countP (sendSucceeds gw) := by
  rw [List.countP_filter]
  apply List.countP_congr
  intro d _
  by_cases h : gw d.phone = Outcome.delivered <;> simp [sendSucceeds, sendInvalid, h]

theorem countP_sendFails_filter_valid (gw : Gateway) (donors : List Donor) :
    (donors.filter (fun d => !sendInvalid gw d)).countP (sendFails gw)
        + donors.countP (sendInvalid gw)
      = donors.countP (sendFails gw) := by
  induction donors with
  | nil => rfl
  | cons d ds ih =>
    by_cases h : gw d.phone = Outcome.failed (some 21211)
    · have h1 : sendInvalid gw d = true := by simp [sendInvalid, h]
      have h2 : sendFails gw d = true := by simp [sendFails, sendSucceeds, h]
      have e : (d :: ds).filter (fun d => !sendInvalid gw d)
          = ds.filter (fun d => !sendInvalid gw d) := by
        simp [List.filter_cons, h1]
      rw [e, List.countP_cons, List.countP_cons, if_pos h1, if_pos h2]
      omega
    · have h1 : sendInvalid gw d = false := by simp [sendInvalid, h]
      have e : (d :: ds).filter (fun d => !sendInvalid gw d)
          = d :: ds.filter (fun d => !sendInvalid gw d) := by
        simp [List.filter_cons, h1]
      rw [e, List.countP_cons, List.countP_cons, List.countP_cons]
      simp only [h1]
      by_cases h2 : sendFails gw d = true <;> simp [h2] <;> omega

theorem length_alertLoop_registry (env : Env) (gw : Gateway) (message : String) (q : Query)
    (reg : Registry) (hu : UniquePhones reg) :
    (alertLoop env gw message (find q reg) reg).registry.length
        + (find q reg).countP (sendInvalid gw)
      = reg.length := by
  rw [alertLoop_registry _ _ _ _ _ hu, ← List.countP_eq_length_filter]
  have hsplit := List.length_eq_countP_add_countP
    (p := fun d => !(sendInvalid gw d && decide (d.phone ∈ (find q reg).map Donor.phone))) reg
  have hcount : (find q reg).countP (sendInvalid gw)
      = reg.countP (fun a => decide (¬
          (!(sendInvalid gw a && decide (a.phone ∈ (find q reg).map Donor.phone))) = true)) := by
    unfold find
    rw [List.countP_filter]
    apply List.countP_congr
    intro d hd
    have := phone_mem_find_iff (q := q) hu hd
    simp only [find] at this
    by_cases hs : q.selects d = true
    · have hm : d.phone ∈ (List.filter q.selects reg).map Donor.phone :=
        this.2 (List.mem_filter.2 ⟨hd, hs⟩)
      simp [hs, hm]
    · have hm : d.phone ∉ (List.filter q.selects reg).map Donor.phone := fun hp =>
        hs (List.mem_filter.1 (this.1 hp)).2
      simp [hs, hm]
  rw [hcount]
  omega

/-! ## The phone pattern -/

theorem matchAnchored_lit (c : Char) (as : List RxAtom) (cs : List Char) :
    matchAnchored (RxAtom.lit c :: as) cs = true
      ↔ ∃ rest, cs = c :: rest ∧ matchAnchored as rest = true := by
  cases cs with
  | nil => simp [matchAnchored]
  | cons x xs =>
    simp only [matchAnchored, RxAtom.accepts, Bool.and_eq_true, decide_eq_true_eq]
    constructor
    · rintro ⟨rfl, h⟩
      exact ⟨xs, rfl, h⟩
    · rintro ⟨rest, hx, h⟩
      cases hx
      exact ⟨rfl, h⟩

theorem matchAnchored_digits (n : Nat) (cs : List Char) :
    matchAnchored (List.replicate n RxAtom.digit) cs = true
      ↔ cs.length = n ∧ cs.all Char.isDigit = true := by
  induction n generalizing cs with
  | zero =>
    cases cs with
    | nil => simp [matchAnchored]
    | cons x xs => simp [matchAnchored]
  | succ n ih =>
    cases cs with
    | nil => simp [List.replicate_succ, matchAnchored]
    | cons x xs =>
      simp only [List.replicate_succ, matchAnchored, RxAtom.accepts, Bool.and_eq_true, ih,
        List.length_cons, List.all_cons, Nat.add_right_cancel_iff]
      tauto

theorem phoneRegexTest_iff (phone : String) :
    phoneRegexTest phone = true
      ↔ ∃ ds : List Char, phone.toList = '+' :: '9' :: '1' :: ds ∧ ds.length = 10
          ∧ ds.all Char.isDigit = true := by
  unfold phoneRegexTest phoneRegex
  simp only [List.cons_append, List.nil_append, matchAnchored_lit, matchAnchored_digits]
  constructor
  · rintro ⟨r1, h1, r2, h2, r3, h3, hl, hd⟩
    exact ⟨r3, by rw [h1, h2, h3], hl, hd⟩
  · rintro ⟨ds, h, hl, hd⟩
    exact ⟨_, h, _, rfl, _, rfl, hl, hd⟩

theorem isIndianMobile_iff (phone : String) :
    isIndianMobile phone = true
      ↔ ∃ ds : List Char, phone.toList = '+' :: '9' :: '1' :: ds ∧ ds.length = 10
          ∧ ds.all Char.isDigit = true := by
  unfold isIndianMobile
  simp only [Bool.and_eq_true, decide_eq_true_eq]
  constructor
  · rintro ⟨⟨h1, h2⟩, h3⟩
    refine ⟨phone.toList.drop 3, ?_, h2, h3⟩
    have := List.take_append_drop 3 phone.toList
    rw [h1] at this
    exact this.symm
  · rintro ⟨ds, h, hl, hd⟩
    rw [h]
    exact ⟨⟨rfl, hl⟩, hd⟩

theorem phoneRegexTest_eq_isIndianMobile (phone : String) :
    phoneRegexTest phone = isIndianMobile phone := by
  rw [Bool.eq_iff_iff, phoneRegexTest_iff, isIndianMobile_iff]

/-! ## The registration handler -/

theorem findOne_phoneQuery_eq_none (p : String) (reg : Registry) :
    findOne (phoneQuery p) reg = none ↔ p ∉ reg.map Donor.phone := by
  unfold findOne
  rw [List.find?_eq_none]
  simp only [selects_phoneQuery, decide_eq_true_eq, List.mem_map, not_exists, not_and]

theorem save_of_not_mem (d : Donor) (reg : Registry) (h : d.phone ∉ reg.map Donor.phone) :
    save d reg = Except.ok (reg ++ [d]) := by
  unfold save
  have : reg.any (fun e => decide (e.phone = d.phone)) = false := by
    rw [List.any_eq_false]
    intro e he
    have : e.phone ≠ d.phone := fun hp => h (List.mem_map.2 ⟨e, he, hp⟩)
    simpa using this
  simp [this]

theorem registerDonor_wellFormed (now : Nat) (reg : Registry) (n a p b : String)
    (hn : n ≠ "") (ha : a ≠ "") (hp : p ≠ "") (hb : b ≠ "") :
    registerDonor now reg ⟨some n, some a, some p, some b⟩
      = if phoneRegexTest p = false then
          { response := messageResponse 400 invalidPhoneMessage, registry := reg }
        else if p ∈ reg.map Donor.phone then
          { response := messageResponse 400 "Phone number already registered", registry := reg }
        else
          { response := messageResponse 201 "Donor registered successfully",
            registry := reg ++ [⟨n, a, p, b, now⟩] } := by
  by_cases ht : phoneRegexTest p = false
  · simp [registerDonor, truthy, hn, ha, hp, hb, ht]
  · by_cases hm : p ∈ reg.map Donor.phone
    · have hf : findOne (phoneQuery p) reg ≠ none := fun h =>
        (findOne_phoneQuery_eq_none p reg).1 h hm
      cases he : findOne (phoneQuery p) reg with
      | none => exact absurd he hf
      | some e =>
        simp only [registerDonor, truthy, hn, ha, hp, hb, if_false, he]
        simp [ht, hm]
    · have hf : findOne (phoneQuery p) reg = none := (findOne_phoneQuery_eq_none p reg).2 hm
      have hs : save ⟨n, a, p, b, now⟩ reg = Except.ok (reg ++ [⟨n, a, p, b, now⟩]) :=
        save_of_not_mem _ _ hm
      simp only [registerDonor, truthy, hn, ha, hp, hb, if_false, hf, hs]
      simp [ht, hm]

/-- Every run of the registration handler leaves the registry as it was or
appends one donor whose phone was not present. -/
theorem registerDonor_registry (now : Nat) (reg : Registry) (body : RegisterBody) :
    (registerDonor now reg body).registry = reg
    ∨ ∃ d : Donor, d.phone ∉ reg.map Donor.phone
        ∧ (registerDonor now reg body).registry = reg ++ [d] := by
  unfold registerDonor
  split
  · next name area phone bloodGroup _ _ _ _ =>
    split
    · exact Or.inl rfl
    · split
      · exact Or.inl rfl
      · next hf =>
        have hm := (findOne_phoneQuery_eq_none phone reg).1 hf
        dsimp only
        rw [save_of_not_mem _ _ hm]
        exact Or.inr ⟨_, hm, rfl⟩
  · exact Or.inl rfl

theorem UniquePhones.append_singleton {reg : Registry} (hu : UniquePhones reg) {d : Donor}
    (hd : d.phone ∉ reg.map Donor.phone) : UniquePhones (reg ++ [d]) := by
  unfold UniquePhones at hu ⊢
  rw [List.map_append, List.nodup_append]
  refine ⟨hu, by simp, ?_⟩
  intro x hx hx2
  simp only [List.map_cons, List.map_nil, List.mem_singleton] at hx2
  exact hd (hx2 ▸ hx)

theorem registerDonor_unique (now : Nat) (reg : Registry) (body : RegisterBody)
    (hu : UniquePhones reg) : UniquePhones (registerDonor now reg body).registry := by
  rcases registerDonor_registry now reg body with h | ⟨d, hd, h⟩
  · rw [h]; exact hu
  · rw [h]; exact hu.append_singleton hd

theorem registerDonor_registered_phone (now : Nat) (reg : Registry) (body : RegisterBody)
    (p : String) (hbody : body.phone = some p) (hm : p ∈ reg.map Donor.phone) :
    (registerDonor now reg body).registry = reg
    ∧ (registerDonor now reg body).response.status = 400 := by
  unfold registerDonor
  split
  · next name area phone bloodGroup _ _ hphone _ =>
    have hpp : phone = p := by
      rw [hbody] at hphone
      simp only [truthy] at hphone
      split at hphone
      · cases hphone
      · exact (Option.some.inj hphone).symm
    subst hpp
    split
    · exact ⟨rfl, rfl⟩
    · split
      · exact ⟨rfl, rfl⟩
      · next hf => exact absurd hm ((findOne_phoneQuery_eq_none phone reg).1 hf)
  · exact ⟨rfl, rfl⟩

theorem handle_unique (env : Env) (reg : Registry) (req : Request) (hu : UniquePhones reg) :
    UniquePhones (handle env reg req) := by
  cases req with
  | register now body => exact registerDonor_unique now reg body hu
  | alert gw body => exact UniquePhones.of_sublist (sendAlert_registry_sublist env gw reg body) hu
  | delete phone => exact UniquePhones.of_sublist (deleteOne_sublist _ reg) hu

theorem foldl_handle_unique (env : Env) (reqs : List Request) (reg : Registry)
    (hu : UniquePhones reg) : UniquePhones (reqs.foldl (handle env) reg) := by
  induction reqs generalizing reg with
  | nil => exact hu
  | cons r rs ih => exact ih _ (handle_unique env reg r hu)

/-! ## Claims about the alert dispatch -/

/-- C1: on an authorised, well-formed alert request whose query matches a
non-empty list of donors, the handler answers 200 with a report whose
`successfulSends` is the number of matched donors whose send resolved and whose
`failedSends` is the number whose send threw; the two add up to the number of
matched donors, and the sends attempted are the matched donors' phones, one
each, in order. -/
theorem sendAlert_counts_one_outcome_per_donor (env : Env) (gw : Gateway) (reg : Registry)
    (h a c pw : String) (info : Option String)
    (hh : h ≠ "") (ha : a ≠ "") (hc : c ≠ "") (hpw : pw ≠ "")
    (henv : env.HOSPITAL_ALERT_PASSWORD = some pw)
    (hne : find (alertQuery a c) reg ≠ []) :
    (sendAlert env gw reg ⟨some h, some a, some c, info, some pw⟩).response.status = 200
    ∧ JObj.field (sendAlert env gw reg ⟨some h, some a, some c, info, some pw⟩).response.json
        "successfulSends"
        = some (JVal.num ((find (alertQuery a c) reg).countP (sendSucceeds gw)))
    ∧ JObj.field (sendAlert env gw reg ⟨some h, some a, some c, info, some pw⟩).response.json
        "failedSends"
        = some (JVal.num ((find (alertQuery a c) reg).countP (sendFails gw)))
    ∧ (find (alertQuery a c) reg).countP (sendSucceeds gw)
        + (find (alertQuery a c) reg).countP (sendFails gw)
        = (find (alertQuery a c) reg).length
    ∧ (sendAlert env gw reg ⟨some h, some a, some c, info, some pw⟩).sent.map Sms.toNumber
        = (find (alertQuery a c) reg).map Donor.phone := by
  have hlen : ¬ (find (alertQuery a c) reg).length = 0 := by
    simpa [List.length_eq_zero] using hne
  rw [sendAlert_authorised env gw reg h a c pw info hh ha hc hpw henv, if_neg hlen]
  refine ⟨rfl, ?_, ?_, countP_sendSucceeds_add_sendFails gw _, ?_⟩
  · show JObj.field (alertReport _) "successfulSends" = _
    rw [alertReport_field_successfulSends, alertLoop_successfulSends]
  · show JObj.field (alertReport _) "failedSends" = _
    rw [alertReport_field_failedSends, alertLoop_failedSends]
  · show List.map Sms.toNumber (alertLoop _ _ _ _ _).sent = _
    rw [alertLoop_sent, List.map_map]
    rfl

theorem sendAlert_counts_one_outcome_per_donor_witness :
    (sendAlert exampleEnv mixedGateway scenarioB
        ⟨some "City Hospital", some "All", some "Any", none, some "secret"⟩).response.status = 200
    ∧ JObj.field (sendAlert exampleEnv mixedGateway scenarioB
        ⟨some "City Hospital", some "All", some "Any", none, some "secret"⟩).response.json
        "successfulSends"
        = some (JVal.num ((find (alertQuery "All" "Any") scenarioB).countP
            (sendSucceeds mixedGateway)))
    ∧ JObj.field (sendAlert exampleEnv mixedGateway scenarioB
        ⟨some "City Hospital", some "All", some "Any", none, some "secret"⟩).response.json
        "failedSends"
        = some (JVal.num ((find (alertQuery "All" "Any") scenarioB).countP
            (sendFails mixedGateway)))
    ∧ (find (alertQuery "All" "Any") scenarioB).countP (sendSucceeds mixedGateway)
        + (find (alertQuery "All" "Any") scenarioB).countP (sendFails mixedGateway)
        = (find (alertQuery "All" "Any") scenarioB).length
    ∧ (sendAlert exampleEnv mixedGateway scenarioB
        ⟨some "City Hospital", some "All", some "Any", none, some "secret"⟩).sent.map Sms.toNumber
        = (find (alertQuery "All" "Any") scenarioB).map Donor.phone :=
  sendAlert_counts_one_outcome_per_donor exampleEnv mixedGateway scenarioB
    "City Hospital" "All" "Any" "secret" none
    (by decide) (by decide) (by decide) (by decide) rfl (by decide)

/-- C3: on an authorised, well-formed request with a non-empty matched list,
the sends attempted are exactly one per matched donor, in matched order, each
addressed to that donor's phone and each carrying the one body composed from
hospitalName, area, bloodGroup and additionalInfo (empty text when it is
missing); this holds for every gateway, so no failure stops later sends. -/
theorem sendAlert_sends_one_per_donor_same_body (env : Env) (gw : Gateway) (reg : Registry)
    (h a c pw : String) (info : Option String)
    (hh : h ≠ "") (ha : a ≠ "") (hc : c ≠ "") (hpw : pw ≠ "")
    (henv : env.HOSPITAL_ALERT_PASSWORD = some pw)
    (hne : find (alertQuery a c) reg ≠ []) :
    (sendAlert env gw reg ⟨some h, some a, some c, info, some pw⟩).sent
        = (find (alertQuery a c) reg).map (fun d =>
            { body := alertMessage h a c info, fromNumber := env.TWILIO_PHONE_NUMBER,
              toNumber := d.phone })
    ∧ alertMessage h a c none
        = "URGENT: Blood needed at " ++ h ++ " in " ++ a ++ ". Blood type: " ++ c ++ ". "
            ++ "" ++ " Please help if you can."
    ∧ ∀ text : String, text ≠ "" →
        alertMessage h a c (some text)
          = "URGENT: Blood needed at " ++ h ++ " in " ++ a ++ ". Blood type: " ++ c ++ ". "
              ++ text ++ " Please help if you can." := by
  have hlen : ¬ (find (alertQuery a c) reg).length = 0 := by
    simpa [List.length_eq_zero] using hne
  rw [sendAlert_authorised env gw reg h a c pw info hh ha hc hpw henv, if_neg hlen]
  refine ⟨alertLoop_sent _ _ _ _ _, ?_, ?_⟩
  · simp [alertMessage, truthy]
  · intro text ht
    simp [alertMessage, truthy, ht]

theorem sendAlert_sends_one_per_donor_same_body_witness :
    (sendAlert exampleEnv mixedGateway scenarioB
        ⟨some "City Hospital", some "All", some "Any", none, some "secret"⟩).sent
        = (find (alertQuery "All" "Any") scenarioB).map (fun d =>
            { body := alertMessage "City Hospital" "All" "Any" none,
              fromNumber := exampleEnv.TWILIO_PHONE_NUMBER, toNumber := d.phone })
    ∧ alertMessage "City Hospital" "All" "Any" none
        = "URGENT: Blood needed at " ++ "City Hospital" ++ " in " ++ "All" ++ ". Blood type: "
            ++ "Any" ++ ". " ++ "" ++ " Please help if you can."
    ∧ ∀ text : String, text ≠ "" →
        alertMessage "City Hospital" "All" "Any" (some text)
          = "URGENT: Blood needed at " ++ "City Hospital" ++ " in " ++ "All" ++ ". Blood type: "
              ++ "Any" ++ ". " ++ text ++ " Please help if you can." :=
  sendAlert_sends_one_per_donor_same_body exampleEnv mixedGateway scenarioB
    "City Hospital" "All" "Any" "secret" none
    (by decide) (by decide) (by decide) (by decide) rfl (by decide)

/-- C4: on an authorised, well-formed request whose query matches no donor, the
handler answers 404, attempts no send and leaves the registry as it was; the
message reads "in any area" for the area filter "All" and otherwise names the
requested area. -/
theorem sendAlert_no_match (env : Env) (gw : Gateway) (reg : Registry)
    (h a c pw : String) (info : Option String)
    (hh : h ≠ "") (ha : a ≠ "") (hc : c ≠ "") (hpw : pw ≠ "")
    (henv : env.HOSPITAL_ALERT_PASSWORD = some pw)
    (hnone : find (alertQuery a c) reg = []) :
    (sendAlert env gw reg ⟨some h, some a, some c, info, some pw⟩).response
        = messageResponse 404 (noDonorsMessage a)
    ∧ (sendAlert env gw reg ⟨some h, some a, some c, info, some pw⟩).sent = []
    ∧ (sendAlert env gw reg ⟨some h, some a, some c, info, some pw⟩).registry = reg
    ∧ (a = "All" →
        noDonorsMessage a = "No donors found with the required blood group in any area.")
    ∧ (a ≠ "All" →
        noDonorsMessage a
          = "No donors found with the required blood group in the " ++ a ++ " area.") := by
  rw [sendAlert_authorised env gw reg h a c pw info hh ha hc hpw henv, hnone]
  refine ⟨rfl, rfl, rfl, ?_, ?_⟩
  · intro hall
    subst hall
    decide
  · intro hall
    simp only [noDonorsMessage, if_neg hall, String.append_assoc]
    rw [← String.append_assoc]
    rfl

theorem sendAlert_no_match_witness :
    (sendAlert exampleEnv mixedGateway scenarioB
        ⟨some "City Hospital", some "Y", some "Q", none, some "secret"⟩).response
        = messageResponse 404 (noDonorsMessage "Y")
    ∧ (sendAlert exampleEnv mixedGateway scenarioB
        ⟨some "City Hospital", some "Y", some "Q", none, some "secret"⟩).sent = []
    ∧ (sendAlert exampleEnv mixedGateway scenarioB
        ⟨some "City Hospital", some "Y", some "Q", none, some "secret"⟩).registry = scenarioB
    ∧ ("Y" = "All" →
        noDonorsMessage "Y" = "No donors found with the required blood group in any area.")
    ∧ ("Y" ≠ "All" →
        noDonorsMessage "Y"
          = "No donors found with the required blood group in the " ++ "Y" ++ " area.") :=
  sendAlert_no_match exampleEnv mixedGateway scenarioB "City Hospital" "Y" "Q" "secret" none
    (by decide) (by decide) (by decide) (by decide) rfl (by decide)

/-- C5: the donors the alert handler matches for area filter `a` and blood-group
filter `c` are exactly the registry entries `r`, in registry order, with
(`a` is "All" or `r.area = a`) and (`c` is "Any" or `r.bloodGroup = c`); with
both wildcards that is the whole registry; and on an authorised, well-formed
request these are the donors the handler addresses. -/
theorem sendAlert_matches_filter (env : Env) (gw : Gateway) (reg : Registry)
    (h a c pw : String) (info : Option String)
    (hh : h ≠ "") (ha : a ≠ "") (hc : c ≠ "") (hpw : pw ≠ "")
    (henv : env.HOSPITAL_ALERT_PASSWORD = some pw) :
    find (alertQuery a c) reg
        = reg.filter (fun r =>
            decide ((a = "All" ∨ r.area = a) ∧ (c = "Any" ∨ r.bloodGroup = c)))
    ∧ find (alertQuery "All" c) reg
        = reg.filter (fun r => decide (c = "Any" ∨ r.bloodGroup = c))
    ∧ find (alertQuery a "Any") reg
        = reg.filter (fun r => decide (a = "All" ∨ r.area = a))
    ∧ find (alertQuery "All" "Any") reg = reg
    ∧ (sendAlert env gw reg ⟨some h, some a, some c, info, some pw⟩).sent.map Sms.toNumber
        = (reg.filter (fun r =>
            decide ((a = "All" ∨ r.area = a) ∧ (c = "Any" ∨ r.bloodGroup = c)))).map
            Donor.phone := by
  have key : ∀ a c : String, find (alertQuery a c) reg
      = reg.filter (fun r =>
          decide ((a = "All" ∨ r.area = a) ∧ (c = "Any" ∨ r.bloodGroup = c))) := by
    intro a c
    unfold find
    apply List.filter_congr
    intro r _
    by_cases h1 : a = "All" <;> by_cases h2 : c = "Any" <;>
      simp [alertQuery, Query.selects, constraintHolds, h1, h2]
  refine ⟨key a c, ?_, ?_, ?_, ?_⟩
  · rw [key]; simp
  · rw [key]; simp
  · rw [key]; simp
  · rw [sendAlert_authorised env gw reg h a c pw info hh ha hc hpw henv, ← key a c]
    split
    · next hz => simp [List.length_eq_zero.1 hz]
    · show List.map Sms.toNumber (alertLoop _ _ _ _ _).sent = _
      rw [alertLoop_sent, List.map_map]
      rfl

theorem sendAlert_matches_filter_witness :
    find (alertQuery "X" "P") scenarioA
        = scenarioA.filter (fun r =>
            decide (("X" = "All" ∨ r.area = "X") ∧ ("P" = "Any" ∨ r.bloodGroup = "P")))
    ∧ find (alertQuery "All" "P") scenarioA
        = scenarioA.filter (fun r => decide ("P" = "Any" ∨ r.bloodGroup = "P"))
    ∧ find (alertQuery "X" "Any") scenarioA
        = scenarioA.filter (fun r => decide ("X" = "All" ∨ r.area = "X"))
    ∧ find (alertQuery "All" "Any") scenarioA = scenarioA
    ∧ (sendAlert exampleEnv deliverAll scenarioA
        ⟨some "City Hospital", some "X", some "P", none, some "secret"⟩).sent.map Sms.toNumber
        = (scenarioA.filter (fun r =>
            decide (("X" = "All" ∨ r.area = "X") ∧ ("P" = "Any" ∨ r.bloodGroup = "P")))).map
            Donor.phone :=
  sendAlert_matches_filter exampleEnv deliverAll scenarioA "City Hospital" "X" "P" "secret" none
    (by decide) (by decide) (by decide) (by decide) rfl

/-- C6: on an authorised, well-formed request with a non-empty matched list, the
`failedNumbers` list of the send loop is the phones of the matched donors whose
send threw, in matched order; its length is `failedSends`; and the report has
no `failedNumbers` key when `failedSends` is 0 and otherwise carries that list
under it. -/
theorem sendAlert_failedNumbers (env : Env) (gw : Gateway) (reg : Registry)
    (h a c pw : String) (info : Option String)
    (hh : h ≠ "") (ha : a ≠ "") (hc : c ≠ "") (hpw : pw ≠ "")
    (henv : env.HOSPITAL_ALERT_PASSWORD = some pw)
    (hne : find (alertQuery a c) reg ≠ []) :
    (alertLoop env gw (alertMessage h a c info) (find (alertQuery a c) reg) reg).failedNumbers
        = ((find (alertQuery a c) reg).filter (sendFails gw)).map Donor.phone
    ∧ (alertLoop env gw (alertMessage h a c info) (find (alertQuery a c) reg)
          reg).failedNumbers.length
        = (alertLoop env gw (alertMessage h a c info) (find (alertQuery a c) reg) reg).failedSends
    ∧ JObj.field (sendAlert env gw reg ⟨some h, some a, some c, info, some pw⟩).response.json
        "failedSends"
        = some (JVal.num
            (alertLoop env gw (alertMessage h a c info) (find (alertQuery a c) reg)
              reg).failedSends)
    ∧ JObj.field (sendAlert env gw reg ⟨some h, some a, some c, info, some pw⟩).response.json
        "failedNumbers"
        = (if (alertLoop env gw (alertMessage h a c info) (find (alertQuery a c) reg)
                reg).failedSends = 0 then none
           else some (JVal.strs
              (((find (alertQuery a c) reg).filter (sendFails gw)).map Donor.phone))) := by
  have hlen : ¬ (find (alertQuery a c) reg).length = 0 := by
    simpa [List.length_eq_zero] using hne
  rw [sendAlert_authorised env gw reg h a c pw info hh ha hc hpw henv, if_neg hlen]
  refine ⟨alertLoop_failedNumbers _ _ _ _ _, ?_, ?_, ?_⟩
  · rw [alertLoop_failedNumbers, alertLoop_failedSends, List.length_map, List.countP_eq_length_filter]
  · show JObj.field (alertReport _) "failedSends" = _
    rw [alertReport_field_failedSends]
  · show JObj.field (alertReport _) "failedNumbers" = _
    rw [alertReport_field_failedNumbers, alertLoop_failedNumbers]

theorem sendAlert_failedNumbers_witness :
    (alertLoop exampleEnv mixedGateway (alertMessage "City Hospital" "All" "Any" none)
        (find (alertQuery "All" "Any") scenarioB) scenarioB).failedNumbers
        = ((find (alertQuery "All" "Any") scenarioB).filter (sendFails mixedGateway)).map
            Donor.phone
    ∧ (alertLoop exampleEnv mixedGateway (alertMessage "City Hospital" "All" "Any" none)
          (find (alertQuery "All" "Any") scenarioB) scenarioB).failedNumbers.length
        = (alertLoop exampleEnv mixedGateway (alertMessage "City Hospital" "All" "Any" none)
            (find (alertQuery "All" "Any") scenarioB) scenarioB).failedSends
    ∧ JObj.field (sendAlert exampleEnv mixedGateway scenarioB
          ⟨some "City Hospital", some "All", some "Any", none, some "secret"⟩).response.json
        "failedSends"
        = some (JVal.num
            (alertLoop exampleEnv mixedGateway (alertMessage "City Hospital" "All" "Any" none)
              (find (alertQuery "All" "Any") scenarioB) scenarioB).failedSends)
    ∧ JObj.field (sendAlert exampleEnv mixedGateway scenarioB
          ⟨some "City Hospital", some "All", some "Any", none, some "secret"⟩).response.json
        "failedNumbers"
        = (if (alertLoop exampleEnv mixedGateway (alertMessage "City Hospital" "All" "Any" none)
                (find (alertQuery "All" "Any") scenarioB) scenarioB).failedSends = 0 then none
           else some (JVal.strs
              (((find (alertQuery "All" "Any") scenarioB).filter
                (sendFails mixedGateway)).map Donor.phone))) :=
  sendAlert_failedNumbers exampleEnv mixedGateway scenarioB
    "City Hospital" "All" "Any" "secret" none
    (by decide) (by decide) (by decide) (by decide) rfl (by decide)

/-- C2: in a registry with unique phones, after any alert request a donor is in
the registry exactly when it was there before and it is not a donor the
handler sent to whose send failed with the invalid-number code 21211; on an
authorised, well-formed request the donors sent to are the matched donors. The
registry left is a sublist of the one before, so the donors that remain are
unchanged and in their order. -/
theorem sendAlert_removes_exactly_invalid (env : Env) (gw : Gateway) (reg : Registry)
    (hu : UniquePhones reg) (d : Donor) :
    (∀ body : AlertBody,
        (d ∈ (sendAlert env gw reg body).registry
          ↔ d ∈ reg ∧ ¬ (d.phone ∈ (sendAlert env gw reg body).sent.map Sms.toNumber
                          ∧ gw d.phone = Outcome.failed (some 21211)))
        ∧ ((sendAlert env gw reg body).registry).Sublist reg)
    ∧ (∀ (h a c pw : String) (info : Option String),
        h ≠ "" → a ≠ "" → c ≠ "" → pw ≠ "" → env.HOSPITAL_ALERT_PASSWORD = some pw →
        (d ∈ (sendAlert env gw reg ⟨some h, some a, some c, info, some pw⟩).registry
          ↔ d ∈ reg ∧ ¬ (d ∈ find (alertQuery a c) reg
                          ∧ gw d.phone = Outcome.failed (some 21211)))) := by
  constructor
  · intro body
    refine ⟨?_, sendAlert_registry_sublist env gw reg body⟩
    rcases sendAlert_cases env gw reg body with ⟨h1, h2⟩ | ⟨q, message, h1, h2⟩
    · rw [h1, h2]; simp
    · rw [h1, h2, mem_alertLoop_registry _ _ _ _ _ hu, alertLoop_sent, List.map_map]
      constructor
      · rintro ⟨hd, hk⟩
        refine ⟨hd, fun hx => hk ⟨(phone_mem_find_iff hu hd).1 ?_, hx.2⟩⟩
        simpa [Function.comp_def] using hx.1
      · rintro ⟨hd, hk⟩
        refine ⟨hd, fun hx => hk ⟨?_, hx.2⟩⟩
        have := (phone_mem_find_iff (q := q) hu hd).2 hx.1
        simpa [Function.comp_def] using this
  · intro h a c pw info hh ha hc hpw henv
    rw [sendAlert_authorised env gw reg h a c pw info hh ha hc hpw henv]
    split
    · next hz =>
      have : find (alertQuery a c) reg = [] := List.length_eq_zero.1 hz
      simp [this]
    · exact mem_alertLoop_registry _ _ _ _ _ hu d

theorem sendAlert_removes_exactly_invalid_witness :
    (∀ body : AlertBody,
        ((⟨"Bala", "X", "+919000000002", "Q", 2⟩ : Donor)
            ∈ (sendAlert exampleEnv mixedGateway scenarioB body).registry
          ↔ (⟨"Bala", "X", "+919000000002", "Q", 2⟩ : Donor) ∈ scenarioB
            ∧ ¬ ((⟨"Bala", "X", "+919000000002", "Q", 2⟩ : Donor).phone
                    ∈ (sendAlert exampleEnv mixedGateway scenarioB body).sent.map Sms.toNumber
                  ∧ mixedGateway (⟨"Bala", "X", "+919000000002", "Q", 2⟩ : Donor).phone
                      = Outcome.failed (some 21211)))
        ∧ ((sendAlert exampleEnv mixedGateway scenarioB body).registry).Sublist scenarioB)
    ∧ (∀ (h a c pw : String) (info : Option String),
        h ≠ "" → a ≠ "" → c ≠ "" → pw ≠ "" → exampleEnv.HOSPITAL_ALERT_PASSWORD = some pw →
        ((⟨"Bala", "X", "+919000000002", "Q", 2⟩ : Donor)
            ∈ (sendAlert exampleEnv mixedGateway scenarioB
                ⟨some h, some a, some c, info, some pw⟩).registry
          ↔ (⟨"Bala", "X", "+919000000002", "Q", 2⟩ : Donor) ∈ scenarioB
            ∧ ¬ ((⟨"Bala", "X", "+919000000002", "Q", 2⟩ : Donor) ∈ find (alertQuery a c) scenarioB
                  ∧ mixedGateway (⟨"Bala", "X", "+919000000002", "Q", 2⟩ : Donor).phone
                      = Outcome.failed (some 21211)))) :=
  sendAlert_removes_exactly_invalid exampleEnv mixedGateway scenarioB (by decide)
    ⟨"Bala", "X", "+919000000002", "Q", 2⟩

/-- Counterexample to C7 as stated: with five donors matched by area "All",
blood group "Any", two of whose sends fail, the report has the keys message,
successfulSends, failedSends and failedNumbers only, and none of its values is
the matched count 5. -/
theorem sendAlert_report_has_no_total :
    (find (alertQuery "All" "Any") scenarioB).length = 5
    ∧ (sendAlert exampleEnv mixedGateway scenarioB (exampleAlert "All" "Any")).response.status
        = 200
    ∧ (sendAlert exampleEnv mixedGateway scenarioB (exampleAlert "All" "Any")).response.json.map
          Prod.fst
        = ["message", "successfulSends", "failedSends", "failedNumbers"]
    ∧ JVal.num 5 ∉
        (sendAlert exampleEnv mixedGateway scenarioB (exampleAlert "All" "Any")).response.json.map
          Prod.snd := by
  decide

/-- C7, amended: on an authorised, well-formed request with a non-empty matched
list of N donors, the report's keys are message, successfulSends and
failedSends, followed by failedNumbers when a send failed; there is no
total-matched key, and N is the sum of the successfulSends and failedSends
values. -/
theorem sendAlert_report_shape (env : Env) (gw : Gateway) (reg : Registry)
    (h a c pw : String) (info : Option String)
    (hh : h ≠ "") (ha : a ≠ "") (hc : c ≠ "") (hpw : pw ≠ "")
    (henv : env.HOSPITAL_ALERT_PASSWORD = some pw)
    (hne : find (alertQuery a c) reg ≠ []) :
    (sendAlert env gw reg ⟨some h, some a, some c, info, some pw⟩).response.json.map Prod.fst
        = ["message", "successfulSends", "failedSends"]
            ++ (if (find (alertQuery a c) reg).countP (sendFails gw) = 0 then []
                else ["failedNumbers"])
    ∧ ∃ successful failed : Nat,
        JObj.field (sendAlert env gw reg ⟨some h, some a, some c, info, some pw⟩).response.json
            "successfulSends" = some (JVal.num successful)
        ∧ JObj.field (sendAlert env gw reg ⟨some h, some a, some c, info, some pw⟩).response.json
            "failedSends" = some (JVal.num failed)
        ∧ successful + failed = (find (alertQuery a c) reg).length := by
  have hlen : ¬ (find (alertQuery a c) reg).length = 0 := by
    simpa [List.length_eq_zero] using hne
  rw [sendAlert_authorised env gw reg h a c pw info hh ha hc hpw henv, if_neg hlen]
  constructor
  · show (alertReport _).map Prod.fst = _
    rw [alertReport_keys, alertLoop_failedSends]
  · refine ⟨_, _, alertReport_field_successfulSends _, alertReport_field_failedSends _, ?_⟩
    rw [alertLoop_successfulSends, alertLoop_failedSends]
    exact countP_sendSucceeds_add_sendFails gw _

theorem sendAlert_report_shape_witness :
    (sendAlert exampleEnv deliverAll scenarioB
        ⟨some "City Hospital", some "All", some "Any", none, some "secret"⟩).response.json.map
          Prod.fst
        = ["message", "successfulSends", "failedSends"]
            ++ (if (find (alertQuery "All" "Any") scenarioB).countP (sendFails deliverAll) = 0
                then [] else ["failedNumbers"])
    ∧ ∃ successful failed : Nat,
        JObj.field (sendAlert exampleEnv deliverAll scenarioB
            ⟨some "City Hospital", some "All", some "Any", none, some "secret"⟩).response.json
            "successfulSends" = some (JVal.num successful)
        ∧ JObj.field (sendAlert exampleEnv deliverAll scenarioB
            ⟨some "City Hospital", some "All", some "Any", none, some "secret"⟩).response.json
            "failedSends" = some (JVal.num failed)
        ∧ successful + failed = (find (alertQuery "All" "Any") scenarioB).length :=
  sendAlert_report_shape exampleEnv deliverAll scenarioB
    "City Hospital" "All" "Any" "secret" none
    (by decide) (by decide) (by decide) (by decide) rfl (by decide)

/-- C8: in a registry with unique phones, run the alert handler twice in a row
with the same authorised, well-formed request and the same gateway. If the
first run removed no donor, the registry is unchanged and the second run gives
the same result as the first. Whenever the second run still matches a donor,
both runs answer with a report, the second's successfulSends equals the first's
and the second's failedSends is the first's minus the number of donors the
first run removed. -/
theorem sendAlert_twice (env : Env) (gw : Gateway) (reg : Registry)
    (h a c pw : String) (info : Option String) (body : AlertBody) (r₁ r₂ : AlertResult)
    (hh : h ≠ "") (ha : a ≠ "") (hc : c ≠ "") (hpw : pw ≠ "")
    (henv : env.HOSPITAL_ALERT_PASSWORD = some pw)
    (hbody : body = ⟨some h, some a, some c, info, some pw⟩)
    (hu : UniquePhones reg)
    (hr₁ : r₁ = sendAlert env gw reg body)
    (hr₂ : r₂ = sendAlert env gw r₁.registry body) :
    (r₁.registry.length = reg.length → r₁.registry = reg ∧ r₂ = r₁)
    ∧ (find (alertQuery a c) r₁.registry ≠ [] →
        ∃ s₁ f₁ s₂ f₂ : Nat,
          JObj.field r₁.response.json "successfulSends" = some (JVal.num s₁)
          ∧ JObj.field r₁.response.json "failedSends" = some (JVal.num f₁)
          ∧ JObj.field r₂.response.json "successfulSends" = some (JVal.num s₂)
          ∧ JObj.field r₂.response.json "failedSends" = some (JVal.num f₂)
          ∧ s₂ = s₁
          ∧ f₂ = f₁ - (reg.length - r₁.registry.length)
          ∧ reg.length - r₁.registry.length ≤ f₁) := by
  subst hbody
  constructor
  · intro hlen
    have hreg : r₁.registry = reg := by
      have hsub : (r₁.registry).Sublist reg := by
        rw [hr₁]; exact sendAlert_registry_sublist env gw reg _
      exact hsub.eq_of_length hlen
    refine ⟨hreg, ?_⟩
    rw [hr₂, hreg, hr₁]
  · intro hne2
    by_cases hz : (find (alertQuery a c) reg).length = 0
    · exfalso
      apply hne2
      have h1 : r₁.registry = reg := by
        rw [hr₁, sendAlert_authorised env gw reg h a c pw info hh ha hc hpw henv, if_pos hz]
      rw [h1]
      exact List.length_eq_zero.1 hz
    · have e1 : r₁ = _ := hr₁.trans
        ((sendAlert_authorised env gw reg h a c pw info hh ha hc hpw henv).trans (if_neg hz))
      have hreg1 : r₁.registry
          = (alertLoop env gw (alertMessage h a c info) (find (alertQuery a c) reg) reg).registry := by
        rw [e1]
      have hfind2 : find (alertQuery a c) r₁.registry
          = (find (alertQuery a c) reg).filter (fun d => !sendInvalid gw d) := by
        rw [hreg1]; exact find_alertLoop_registry _ _ _ _ _ hu
      have hz2 : ¬ (find (alertQuery a c) r₁.registry).length = 0 := by
        simpa [List.length_eq_zero] using hne2
      have e2 : r₂ = _ := hr₂.trans
        ((sendAlert_authorised env gw r₁.registry h a c pw info hh ha hc hpw henv).trans
          (if_neg hz2))
      have hlen := length_alertLoop_registry env gw (alertMessage h a c info) (alertQuery a c)
        reg hu
      have hfails := countP_sendFails_filter_valid gw (find (alertQuery a c) reg)
      refine ⟨(find (alertQuery a c) reg).countP (sendSucceeds gw),
        (find (alertQuery a c) reg).countP (sendFails gw),
        (find (alertQuery a c) r₁.registry).countP (sendSucceeds gw),
        (find (alertQuery a c) r₁.registry).countP (sendFails gw), ?_, ?_, ?_, ?_, ?_, ?_, ?_⟩
      · rw [e1]
        show JObj.field (alertReport _) "successfulSends" = _
        rw [alertReport_field_successfulSends, alertLoop_successfulSends]
      · rw [e1]
        show JObj.field (alertReport _) "failedSends" = _
        rw [alertReport_field_failedSends, alertLoop_failedSends]
      · rw [e2]
        show JObj.field (alertReport _) "successfulSends" = _
        rw [alertReport_field_successfulSends, alertLoop_successfulSends]
      · rw [e2]
        show JObj.field (alertReport _) "failedSends" = _
        rw [alertReport_field_failedSends, alertLoop_failedSends]
      · rw [hfind2, countP_sendSucceeds_filter_valid]
      · rw [hfind2, hreg1]
        omega
      · rw [hreg1]
        omega

theorem sendAlert_twice_witness :
    ((sendAlert exampleEnv mixedGateway scenarioB (exampleAlert "All" "Any")).registry.length
        = scenarioB.length →
      (sendAlert exampleEnv mixedGateway scenarioB (exampleAlert "All" "Any")).registry = scenarioB
      ∧ sendAlert exampleEnv mixedGateway
          (sendAlert exampleEnv mixedGateway scenarioB (exampleAlert "All" "Any")).registry
          (exampleAlert "All" "Any")
        = sendAlert exampleEnv mixedGateway scenarioB (exampleAlert "All" "Any"))
    ∧ (find (alertQuery "All" "Any")
          (sendAlert exampleEnv mixedGateway scenarioB (exampleAlert "All" "Any")).registry ≠ [] →
        ∃ s₁ f₁ s₂ f₂ : Nat,
          JObj.field
              (sendAlert exampleEnv mixedGateway scenarioB
                (exampleAlert "All" "Any")).response.json "successfulSends"
            = some (JVal.num s₁)
          ∧ JObj.field
              (sendAlert exampleEnv mixedGateway scenarioB
                (exampleAlert "All" "Any")).response.json "failedSends"
            = some (JVal.num f₁)
          ∧ JObj.field
              (sendAlert exampleEnv mixedGateway
                (sendAlert exampleEnv mixedGateway scenarioB (exampleAlert "All" "Any")).registry
                (exampleAlert "All" "Any")).response.json "successfulSends"
            = some (JVal.num s₂)
          ∧ JObj.field
              (sendAlert exampleEnv mixedGateway
                (sendAlert exampleEnv mixedGateway scenarioB (exampleAlert "All" "Any")).registry
                (exampleAlert "All" "Any")).response.json "failedSends"
            = some (JVal.num f₂)
          ∧ s₂ = s₁
          ∧ f₂ = f₁ - (scenarioB.length
              - (sendAlert exampleEnv mixedGateway scenarioB
                  (exampleAlert "All" "Any")).registry.length)
          ∧ scenarioB.length
              - (sendAlert exampleEnv mixedGateway scenarioB
                  (exampleAlert "All" "Any")).registry.length ≤ f₁) :=
  sendAlert_twice exampleEnv mixedGateway scenarioB "City Hospital" "All" "Any" "secret" none
    (exampleAlert "All" "Any")
    (sendAlert exampleEnv mixedGateway scenarioB (exampleAlert "All" "Any"))
    (sendAlert exampleEnv mixedGateway
      (sendAlert exampleEnv mixedGateway scenarioB (exampleAlert "All" "Any")).registry
      (exampleAlert "All" "Any"))
    (by decide) (by decide) (by decide) (by decide) rfl rfl (by decide) rfl rfl

/-! ## Claims about registration and the registry invariant -/

/-- C9: for a registration request with non-empty name, area, phone and
bloodGroup, the pattern test on the phone succeeds exactly when the phone is
the text "+91" followed by exactly ten decimal digits and nothing else; any
other phone is answered with status 400 and the registry is left as it was,
and a phone of that form goes on to the duplicate check. -/
theorem registerDonor_phone_format (now : Nat) (reg : Registry) (n a p b : String)
    (hn : n ≠ "") (ha : a ≠ "") (hp : p ≠ "") (hb : b ≠ "") :
    (phoneRegexTest p = true ↔ isIndianMobile p = true)
    ∧ (phoneRegexTest p = true
        ↔ ∃ ds : List Char, ds.length = 10 ∧ (∀ x ∈ ds, x.isDigit = true)
            ∧ p = "+91" ++ String.mk ds)
    ∧ (isIndianMobile p = false →
        registerDonor now reg ⟨some n, some a, some p, some b⟩
          = { response := messageResponse 400 invalidPhoneMessage, registry := reg })
    ∧ (isIndianMobile p = true →
        registerDonor now reg ⟨some n, some a, some p, some b⟩
          = if p ∈ reg.map Donor.phone then
              { response := messageResponse 400 "Phone number already registered",
                registry := reg }
            else
              { response := messageResponse 201 "Donor registered successfully",
                registry := reg ++ [⟨n, a, p, b, now⟩] }) := by
  refine ⟨by rw [phoneRegexTest_eq_isIndianMobile], ?_, ?_, ?_⟩
  · rw [phoneRegexTest_iff]
    constructor
    · rintro ⟨ds, h, hl, hd⟩
      refine ⟨ds, hl, fun x hx => List.all_eq_true.1 hd x hx, ?_⟩
      apply String.ext
      rw [String.data_append]
      exact h
    · rintro ⟨ds, hl, hd, h⟩
      refine ⟨ds, ?_, hl, List.all_eq_true.2 hd⟩
      rw [h]
      show ("+91" ++ String.mk ds).data = _
      rw [String.data_append]
      rfl
  · intro hf
    rw [registerDonor_wellFormed now reg n a p b hn ha hp hb, phoneRegexTest_eq_isIndianMobile,
      if_pos hf]
  · intro ht
    have : ¬ isIndianMobile p = false := by simp [ht]
    rw [registerDonor_wellFormed now reg n a p b hn ha hp hb, phoneRegexTest_eq_isIndianMobile,
      if_neg this]

theorem registerDonor_phone_format_witness :
    (phoneRegexTest "+91987654321" = true ↔ isIndianMobile "+91987654321" = true)
    ∧ (phoneRegexTest "+91987654321" = true
        ↔ ∃ ds : List Char, ds.length = 10 ∧ (∀ x ∈ ds, x.isDigit = true)
            ∧ "+91987654321" = "+91" ++ String.mk ds)
    ∧ (isIndianMobile "+91987654321" = false →
        registerDonor 6 scenarioB ⟨some "Farid", some "X", some "+91987654321", some "P"⟩
          = { response := messageResponse 400 invalidPhoneMessage, registry := scenarioB })
    ∧ (isIndianMobile "+91987654321" = true →
        registerDonor 6 scenarioB ⟨some "Farid", some "X", some "+91987654321", some "P"⟩
          = if "+91987654321" ∈ scenarioB.map Donor.phone then
              { response := messageResponse 400 "Phone number already registered",
                registry := scenarioB }
            else
              { response := messageResponse 201 "Donor registered successfully",
                registry := scenarioB ++ [⟨"Farid", "X", "+91987654321", "P", 6⟩] }) :=
  registerDonor_phone_format 6 scenarioB "Farid" "X" "+91987654321" "P"
    (by decide) (by decide) (by decide) (by decide)

/-- C10: phone uniqueness is preserved by every request the server handles.
From a registry with unique phones, a registration leaves the registry as it
was or appends one donor with a new phone, and refuses (status 400, registry
as it was) a phone already present; an alert dispatch and a donor deletion
leave a sublist of the registry; each keeps phones unique. Hence phones are
unique in every registry reached from the empty one by any requests. -/
theorem uniquePhones_invariant (env : Env) (reg : Registry) (hu : UniquePhones reg) :
    (∀ (now : Nat) (body : RegisterBody),
        UniquePhones (registerDonor now reg body).registry
        ∧ ((registerDonor now reg body).registry = reg
            ∨ ∃ d : Donor, d.phone ∉ reg.map Donor.phone
                ∧ (registerDonor now reg body).registry = reg ++ [d]))
    ∧ (∀ (now : Nat) (body : RegisterBody) (p : String),
        body.phone = some p → p ∈ reg.map Donor.phone →
          (registerDonor now reg body).registry = reg
          ∧ (registerDonor now reg body).response.status = 400)
    ∧ (∀ (gw : Gateway) (body : AlertBody),
        UniquePhones (sendAlert env gw reg body).registry
        ∧ ((sendAlert env gw reg body).registry).Sublist reg)
    ∧ (∀ phone : String,
        UniquePhones (deleteDonor reg phone).registry
        ∧ ((deleteDonor reg phone).registry).Sublist reg)
    ∧ (∀ req : Request, UniquePhones (handle env reg req))
    ∧ (∀ reqs : List Request, UniquePhones (run env reqs)) := by
  refine ⟨?_, ?_, ?_, ?_, ?_, ?_⟩
  · intro now body
    exact ⟨registerDonor_unique now reg body hu, registerDonor_registry now reg body⟩
  · intro now body p hbody hm
    exact registerDonor_registered_phone now reg body p hbody hm
  · intro gw body
    exact ⟨UniquePhones.of_sublist (sendAlert_registry_sublist env gw reg body) hu,
      sendAlert_registry_sublist env gw reg body⟩
  · intro phone
    exact ⟨UniquePhones.of_sublist (deleteOne_sublist _ reg) hu, deleteOne_sublist _ reg⟩
  · intro req
    exact handle_unique env reg req hu
  · intro reqs
    exact foldl_handle_unique env reqs [] List.nodup_nil

theorem uniquePhones_invariant_witness :
    (∀ (now : Nat) (body : RegisterBody),
        UniquePhones (registerDonor now scenarioB body).registry
        ∧ ((registerDonor now scenarioB body).registry = scenarioB
            ∨ ∃ d : Donor, d.phone ∉ scenarioB.map Donor.phone
                ∧ (registerDonor now scenarioB body).registry = scenarioB ++ [d]))
    ∧ (∀ (now : Nat) (body : RegisterBody) (p : String),
        body.phone = some p → p ∈ scenarioB.map Donor.phone →
          (registerDonor now scenarioB body).registry = scenarioB
          ∧ (registerDonor now scenarioB body).response.status = 400)
    ∧ (∀ (gw : Gateway) (body : AlertBody),
        UniquePhones (sendAlert exampleEnv gw scenarioB body).registry
        ∧ ((sendAlert exampleEnv gw scenarioB body).registry).Sublist scenarioB)
    ∧ (∀ phone : String,
        UniquePhones (deleteDonor scenarioB phone).registry
        ∧ ((deleteDonor scenarioB phone).registry).Sublist scenarioB)
    ∧ (∀ req : Request, UniquePhones (handle exampleEnv scenarioB req))
    ∧ (∀ reqs : List Request, UniquePhones (run exampleEnv reqs)) :=
  uniquePhones_invariant exampleEnv scenarioB (by decide)

end LifeStream
